import Mathlib

/-!
Verification of the policy-hypervisor core (SaharaLabsAI/x-function).

This file gives a shallow embedding, in Lean 4, of the compliance engine,
compliance-quote utilities, agent execution pipeline and the two agent query
handlers of the hypervisor, together with theorems settling the behavioural
claims made by the natural-language specification.

Modelling conventions:
* Byte streams are `List Nat`.  A string contributes the sequence of its
  character code points (`strBytes`); for the ASCII data handled by the
  policies this coincides with the UTF-8 byte stream, and concatenation of
  strings corresponds to concatenation of streams.
* External collaborators are parameters: BLAKE3 is an arbitrary function
  `List Nat → List Nat`, hex encoding an arbitrary `List Nat → String`,
  the TEE quote provider an arbitrary `List Nat → Except String (List Nat)`,
  canonical serde serialization of policy rule types an arbitrary function,
  and so on.  Every theorem quantifies over these parameters.
* Timestamps (`SystemTime::now()`) are `Nat`s; they are never inspected by
  the code under verification.
* UUIDs carry both their 16 raw bytes (`bytes`, used by hashing) and their
  canonical rendering (`str`, used by `to_string()`).
-/

namespace Sahara

/-- Single-quote character, kept out of string literals. -/
def sq : String := ⟨[Char.ofNat 39]⟩

/-- Code-point stream of a string (byte stream for ASCII data). -/
def strBytes (s : String) : List Nat := s.data.map Char.toNat

/-- Model of Rust `str::to_lowercase` (ASCII case folding suffices for the
policy data, which is ASCII). -/
def toLowerStr (s : String) : String := ⟨s.data.map Char.toLower⟩

/-- Whether `n` occurs at the start of `h` (on code-point streams). -/
def listIsPre : List Nat → List Nat → Bool
  | [], _ => true
  | _ :: _, [] => false
  | a :: as, b :: bs => a = b && listIsPre as bs

/-- Whether `n` occurs somewhere inside `h`; model of Rust `str::contains`.
For valid strings, byte-level infix and character-level infix agree (UTF-8 is
self-synchronizing). -/
def listInfix (n : List Nat) : List Nat → Bool
  | [] => listIsPre n []
  | b :: t => listIsPre n (b :: t) || listInfix n t

/-- `strContainsB h n` is Rust `h.contains(n)`. -/
def strContainsB (h n : String) : Bool :=
  listInfix (n.data.map Char.toNat) (h.data.map Char.toNat)

/-- String comparison used when sorting policy IDs: lexicographic order on
code-point streams; model of the `Ord` instance used by Rust
`Vec::<String>::sort` (UTF-8 byte order equals code-point order). -/
def strLeB (a b : String) : Bool := decide (strBytes a ≤ strBytes b)

/-- Model of Rust `str::trim` (whitespace per `Char.isWhitespace`). -/
def trimStr (s : String) : String :=
  ⟨((s.data.dropWhile Char.isWhitespace).reverse.dropWhile Char.isWhitespace).reverse⟩

/-! ## Data model (`agent/types.rs`) -/

/-- UUID: raw bytes (`Uuid::as_bytes`) plus canonical string (`to_string`). -/
structure Uuid where
  bytes : List Nat
  str : String
deriving DecidableEq

/-- `ComplianceQuote` of `agent/types.rs`. -/
structure ComplianceQuote where
  tool_name : String
  compliant : Bool
  quote_bytes : List Nat
  compliance_hash : List Nat
  timestamp : Nat
deriving DecidableEq

/-- `ThoughtStep` of `agent/types.rs`. -/
structure ThoughtStep where
  step : Nat
  content : String
  timestamp : Nat
deriving DecidableEq

/-- `ToolCall` of `agent/types.rs`. -/
structure ToolCall where
  id : Uuid
  tool_name : String
  arguments : String
  timestamp : Nat
  compliance_quote : Option ComplianceQuote
deriving DecidableEq

/-- `AgentPlan` of `agent/types.rs`. -/
structure AgentPlan where
  system_prompt : String
  user_query : String
  thought_process : List ThoughtStep
  intended_tool_calls : List ToolCall
deriving DecidableEq

/-- `ToolResult` of `agent/types.rs`. -/
structure ToolResult where
  call_id : Uuid
  success : Bool
  result : String
  error : Option String
  quote_verified : Bool
deriving DecidableEq

/-- `AgentExecution` of `agent/types.rs`. -/
structure AgentExecution where
  session_id : Uuid
  plan : AgentPlan
  tool_calls : List ToolCall
  tool_results : List ToolResult
  final_response : String
  execution_time_ms : Nat
deriving DecidableEq

/-- `ComplianceResult` of `agent/types.rs`. -/
structure ComplianceResult where
  compliant : Bool
  reason : String
  policy_hash : String
  plan_hash : String
deriving DecidableEq

/-! ## Policy model (`agent/compliance.rs`) -/

/-- `ComplianceMethod` of `agent/compliance.rs`. -/
inductive ComplianceMethod where
  | Deterministic
  | LLMBased
deriving DecidableEq

/-- `PolicyRuleType` of `agent/compliance.rs`. -/
inductive PolicyRuleType where
  | ProhibitedKeywords (keywords : List String)
  | RequiredAbsentPatterns (patterns : List String)
  | OutputRestriction (max_raw_items : Option Nat) (require_aggregation : Bool)
  | NoIdentityInference (prohibited_terms : List String)
  | RequireAttribution (require_source : Bool) (require_timestamp : Bool)
  | LLMCompliance (check_prompt : String)
deriving DecidableEq

/-- `PolicyRule` of `agent/compliance.rs` (the `parameters` field is
`json!({})` throughout the default registry and is never read, so it is
omitted). -/
structure PolicyRule where
  id : String
  rule_type : PolicyRuleType
deriving DecidableEq

/-- `PolicyMethod` of `agent/compliance.rs`. -/
structure PolicyMethod where
  method : ComplianceMethod
  rules : List PolicyRule
deriving DecidableEq

/-- `Policy` of `agent/compliance.rs`. -/
structure Policy where
  id : String
  name : String
  text : String
  methods : List PolicyMethod
deriving DecidableEq

/-! ## Deterministic rule evaluation (`ComplianceChecker::check_rule`) -/

/-- Translation of `ComplianceChecker::check_rule`.  `none` is `Ok(())`,
`some reason` is `Err(reason)`.  Early `return Err(..)` inside the source
loops becomes nested `List.findSome?`. -/
def check_rule (rule : PolicyRule) (plan : AgentPlan) (response : Option String) :
    Option String :=
  match rule.rule_type with
  | .ProhibitedKeywords keywords =>
      let query_lower := toLowerStr plan.user_query
      let system_prompt_lower := toLowerStr plan.system_prompt
      keywords.findSome? fun keyword =>
        let keyword_lower := toLowerStr keyword
        if strContainsB query_lower keyword_lower then
          some ("Prohibited keyword " ++ sq ++ keyword ++ sq ++ " found in user query")
        else if strContainsB system_prompt_lower keyword_lower then
          some ("Prohibited keyword " ++ sq ++ keyword ++ sq ++ " found in system prompt")
        else
          plan.intended_tool_calls.findSome? fun tool_call =>
            if strContainsB (toLowerStr tool_call.arguments) keyword_lower then
              some ("Prohibited keyword " ++ sq ++ keyword ++ sq ++ " found in tool arguments")
            else none
  | .RequiredAbsentPatterns patterns =>
      let query_lower := toLowerStr plan.user_query
      patterns.findSome? fun pat =>
        if strContainsB query_lower (toLowerStr pat) then
          some ("Prohibited pattern " ++ sq ++ pat ++ sq ++ " found")
        else none
  | .OutputRestriction _ require_aggregation =>
      match response with
      | some resp =>
          if require_aggregation then
            let resp_lower := toLowerStr resp
            let has_aggregation := strContainsB resp_lower "total"
              || strContainsB resp_lower "average"
              || strContainsB resp_lower "summary"
              || strContainsB resp_lower "aggregated"
            if !has_aggregation then some "Response should contain aggregated data" else none
          else none
      | none => none
  | .NoIdentityInference prohibited_terms =>
      let query_lower := toLowerStr plan.user_query
      (prohibited_terms.findSome? fun term =>
        if strContainsB query_lower (toLowerStr term) then
          some ("Identity inference term " ++ sq ++ term ++ sq ++ " found")
        else none).or
      (match response with
       | some resp =>
           let resp_lower := toLowerStr resp
           prohibited_terms.findSome? fun term =>
             if strContainsB resp_lower (toLowerStr term) then
               some ("Identity inference term " ++ sq ++ term ++ sq ++ " found in response")
             else none
       | none => none)
  | .RequireAttribution require_source require_timestamp =>
      match response with
      | some resp =>
          let resp_lower := toLowerStr resp
          let has_source := strContainsB resp_lower "according to"
            || strContainsB resp_lower "source:"
            || strContainsB resp_lower "from"
          if require_source && !has_source then
            some "Response must include source attribution"
          else
            let has_timestamp := strContainsB resp_lower "as of"
              || strContainsB resp_lower "timestamp"
              || strContainsB resp_lower "utc"
              || strContainsB resp_lower "time:"
            if require_timestamp && !has_timestamp then
              some "Response must include timestamp"
            else none
      | none => none
  | .LLMCompliance _ => none

/-! ## Plan compliance (`ComplianceChecker::check_compliance`) -/

/-- Reason format of `check_compliance` for a violated rule. -/
def violation_message (policy : Policy) (rule : PolicyRule) (reason : String) : String :=
  "Policy " ++ sq ++ policy.id ++ sq ++ " (" ++ policy.name ++ ") rule " ++ sq
    ++ rule.id ++ sq ++ " violated: " ++ reason

/-- First deterministic rule violation found by the nested loops of
`check_compliance`, with its policy, rule and `check_rule` reason. -/
def first_violation (policies : List Policy) (plan : AgentPlan) :
    Option (Policy × PolicyRule × String) :=
  policies.findSome? fun policy =>
    policy.methods.findSome? fun method =>
      if method.method = ComplianceMethod.Deterministic then
        method.rules.findSome? fun rule =>
          (check_rule rule plan none).map fun reason => (policy, rule, reason)
      else none

/-- Byte stream hashed by `ComplianceChecker::hash_plan` (incremental
`hasher.update` accumulation is concatenation). -/
def plan_stream (plan : AgentPlan) : List Nat :=
  strBytes plan.system_prompt ++ strBytes plan.user_query
    ++ (plan.thought_process.map fun step => strBytes step.content).flatten
    ++ (plan.intended_tool_calls.map fun call =>
          strBytes call.tool_name ++ strBytes call.arguments).flatten

/-- Byte stream hashed by `ComplianceChecker::hash_policies`.  The canonical
serde-JSON serializations of `ComplianceMethod` and `PolicyRuleType` are
external (serde_json) and passed in as functions. -/
def policies_stream (methodJson : ComplianceMethod → String)
    (ruleTypeJson : PolicyRuleType → String) (policies : List Policy) : List Nat :=
  (policies.map fun policy =>
    strBytes policy.id ++ strBytes policy.name ++ strBytes policy.text
      ++ (policy.methods.map fun method =>
            strBytes (methodJson method.method)
              ++ (method.rules.map fun rule =>
                    strBytes rule.id ++ strBytes (ruleTypeJson rule.rule_type)).flatten).flatten).flatten

/-- Translation of `ComplianceChecker::check_compliance` (deterministic
methods only, as in the source; LLM checks are done elsewhere).  BLAKE3 and
hex encoding are external and passed in as functions. -/
def check_compliance (blake3 : List Nat → List Nat) (hexEncode : List Nat → String)
    (methodJson : ComplianceMethod → String) (ruleTypeJson : PolicyRuleType → String)
    (policies : List Policy) (plan : AgentPlan) : ComplianceResult :=
  let plan_hash := hexEncode (blake3 (plan_stream plan))
  let policy_hash := hexEncode (blake3 (policies_stream methodJson ruleTypeJson policies))
  match first_violation policies plan with
  | some pr => ⟨false, violation_message pr.1 pr.2.1 pr.2.2, policy_hash, plan_hash⟩
  | none => ⟨true, "All policy checks passed", policy_hash, plan_hash⟩

/-! ## Per-tool compliance gate (`ComplianceChecker::check_tool_compliance`) -/

/-- `ComplianceChecker::get_policy_ids_for_tool`; the tool→policy map is an
association list (the source `HashMap` is only ever read by key). -/
def get_policy_ids_for_tool (tool_policy_map : List (String × List String))
    (tool_name : String) : List String :=
  ((tool_policy_map.find? fun e => e.1 = tool_name).map Prod.snd).getD []

/-- The temporary one-call plan `check_tool_compliance` synthesizes per rule.
The source gives the call a fresh UUIDv7 and the current time; neither is
read by `check_rule`, so fixed values are used. -/
def temp_tool_plan (tool_name user_query tool_arguments : String) : AgentPlan :=
  ⟨"", user_query, [], [⟨⟨[], ""⟩, tool_name, tool_arguments, 0, none⟩]⟩

/-- Reason format of `check_tool_compliance` for a violated rule. -/
def tool_violation_message (tool_name : String) (policy : Policy) (rule : PolicyRule)
    (reason : String) : String :=
  "Tool " ++ sq ++ tool_name ++ sq ++ " policy " ++ sq ++ policy.id ++ sq ++ " ("
    ++ policy.name ++ ") rule " ++ sq ++ rule.id ++ sq ++ " violated: " ++ reason

/-- Loop body of `check_tool_compliance` over the tool's policy IDs. -/
def check_tool_policy_ids (policies : List Policy)
    (tool_name user_query tool_arguments : String) :
    List String → Except String Unit
  | [] => .ok ()
  | policy_id :: rest =>
    match policies.find? fun p => p.id = policy_id with
    | none => .error ("Policy " ++ sq ++ policy_id ++ sq ++ " not found for tool "
        ++ sq ++ tool_name ++ sq)
    | some policy =>
      match policy.methods.findSome? (fun method =>
        if method.method = ComplianceMethod.Deterministic then
          method.rules.findSome? fun rule =>
            (check_rule rule (temp_tool_plan tool_name user_query tool_arguments) none).map
              fun reason => tool_violation_message tool_name policy rule reason
        else none) with
      | some e => .error e
      | none => check_tool_policy_ids policies tool_name user_query tool_arguments rest

/-- Translation of `ComplianceChecker::check_tool_compliance` (the
deterministic-only gate used by the agent loop). -/
def check_tool_compliance (policies : List Policy)
    (tool_policy_map : List (String × List String))
    (tool_name user_query tool_arguments : String) : Except String Unit :=
  let policy_ids := get_policy_ids_for_tool tool_policy_map tool_name
  if policy_ids.isEmpty then .ok ()
  else check_tool_policy_ids policies tool_name user_query tool_arguments policy_ids

/-! ## Default policy registry (`agent/policy_registry.rs`) -/

/-- Policy L1 of `PolicyRegistry::default_crypto_policy`. -/
def policyL1 : Policy :=
  { id := "L1"
  , name := "No personalized investment advice"
  , text := "The agent must not give personalized investment advice. It may explain concepts and describe markets in general terms, but it must not recommend what a specific user should buy/sell/hold, how to allocate their portfolio, or what concrete trades they should execute, given their personal situation or holdings."
  , methods :=
    [ ⟨ComplianceMethod.Deterministic,
       [⟨"no_investment_advice_keywords",
         PolicyRuleType.ProhibitedKeywords
           [ "should buy", "should sell", "should hold", "recommend buying"
           , "recommend selling", "suggest buying", "suggest selling"
           , "you should invest", "your portfolio", "allocate your" ]⟩]⟩
    , ⟨ComplianceMethod.LLMBased,
       [⟨"llm_check_personalized_advice",
         PolicyRuleType.LLMCompliance
           ("Does this query ask for personalized investment advice specific to a user"
             ++ sq ++ "s situation?")⟩]⟩ ] }

/-- Policy L2 of `PolicyRegistry::default_crypto_policy`. -/
def policyL2 : Policy :=
  { id := "L2"
  , name := "Aggregated outputs only (no raw dumps)"
  , text := "The agent may use raw tool data internally, but user-facing outputs must be aggregated or summarized (e.g., totals, averages, ranges, counts, small illustrative snippets). It must not return large raw dumps such as full tick-by-tick feeds, long transaction lists, or full order books."
  , methods :=
    [ ⟨ComplianceMethod.Deterministic,
       [⟨"output_aggregation", PolicyRuleType.OutputRestriction (some 10) true⟩]⟩
    , ⟨ComplianceMethod.LLMBased,
       [⟨"llm_check_raw_dump",
         PolicyRuleType.LLMCompliance
           "Does this query ask for raw data instead of aggregated/summarized information?"⟩]⟩ ] }

/-- Policy L3 of `PolicyRegistry::default_crypto_policy`. -/
def policyL3 : Policy :=
  { id := "L3"
  , name := "No deanonymization / doxxing of wallets"
  , text := "The agent must not attempt to infer or assert real-world identities behind wallet addresses, nor encourage harassment or targeting of specific wallets. It may use labels explicitly provided by tools (e.g., \"this is a known centralized exchange hot wallet\") but must not guess that an address belongs to a named person or organization unless that information is explicitly and legitimately public and provided."
  , methods :=
    [ ⟨ComplianceMethod.Deterministic,
       [⟨"no_identity_inference",
         PolicyRuleType.NoIdentityInference
           [ "this wallet belongs to", "owned by", "likely owned by"
           , "probably belongs to", "this address is", "belongs to a person"
           , "identity of the wallet" ]⟩]⟩
    , ⟨ComplianceMethod.LLMBased,
       [⟨"llm_check_doxxing",
         PolicyRuleType.LLMCompliance
           "Does this query attempt to infer or assert real-world identities behind wallet addresses without explicit public information?"⟩]⟩ ] }

/-- Policy L4 of `PolicyRegistry::default_crypto_policy` (the text is
transcribed byte-for-byte, including the mojibake ellipsis of the source). -/
def policyL4 : Policy :=
  { id := "L4"
  , name := "Source attribution & timestamp"
  , text := "Whenever the agent uses data from a tool in its answer, it must clearly attribute the source and include a time reference. For example: \"According to PriceFeedTool (data as of 2025-11-20 10:00 UTC), BTC"
      ++ sq ++ "s price is â€¦\". Attribution must be present for each distinct tool whose data is used."
  , methods :=
    [ ⟨ComplianceMethod.Deterministic,
       [⟨"require_attribution", PolicyRuleType.RequireAttribution true true⟩]⟩
    , ⟨ComplianceMethod.LLMBased,
       [⟨"llm_check_attribution",
         PolicyRuleType.LLMCompliance "This policy can be enforced post-hoc. Simply return True"⟩]⟩ ] }

/-- The four default policies, in declaration order. -/
def defaultPolicies : List Policy := [policyL1, policyL2, policyL3, policyL4]

/-- The default tool→policy map of `PolicyRegistry::default_crypto_policy`
(and, identically, the `policy_ids()` of the four tools in `agent/tools.rs`). -/
def defaultToolPolicyMap : List (String × List String) :=
  [ ("PriceFeedTool", ["L1"])
  , ("OnChainHistoryTool", ["L1", "L2", "L3"])
  , ("SentimentTool", ["L1", "L4"])
  , ("PortfolioTool", ["L1", "L2", "L3", "L4"]) ]

/-! ## Compliance quote (`agent/quote_utils.rs`, `utils/attest.rs`) -/

/-- Model of Rust `Vec::<String>::sort()`: the sorted-ascending permutation
under lexicographic byte order. -/
def sort_strings (l : List String) : List String :=
  List.insertionSort (fun a b => strLeB a b = true) l

instance strLeB_isTotal : IsTotal String fun a b => strLeB a b = true :=
  ⟨fun a b => by simp only [strLeB, decide_eq_true_eq]; exact le_total _ _⟩

instance strLeB_isTrans : IsTrans String fun a b => strLeB a b = true :=
  ⟨fun a b c hab hbc => by
    simp only [strLeB, decide_eq_true_eq] at *
    exact le_trans hab hbc⟩

instance strLeB_isAntisymm : IsAntisymm String fun a b => strLeB a b = true :=
  ⟨fun a b hab hba => by
    simp only [strLeB, decide_eq_true_eq] at *
    have hbytes : strBytes a = strBytes b := le_antisymm hab hba
    have hchar : Function.Injective Char.toNat := by
      intro c d hcd
      have := congrArg Char.ofNat hcd
      rwa [Char.ofNat_toNat, Char.ofNat_toNat] at this
    have h2 : a.data = b.data := List.map_injective_iff.mpr hchar hbytes
    cases a
    cases b
    simp_all⟩

/-- Byte stream hashed by `hash_compliance_data`. -/
def hash_compliance_stream (tool_name : String) (compliant : Bool)
    (policy_ids : List String) (user_query arguments : String) : List Nat :=
  let h : List Nat := []
  let h := h ++ strBytes "COMPLIANCE_V1"
  let h := h ++ strBytes tool_name
  let h := h ++ [if compliant then 1 else 0]
  let h := (sort_strings policy_ids).foldl (fun h policy_id => h ++ strBytes policy_id) h
  h ++ strBytes user_query ++ strBytes arguments

/-- Translation of `hash_compliance_data` (BLAKE3 external, as a function). -/
def hash_compliance_data (blake3 : List Nat → List Nat) (tool_name : String)
    (compliant : Bool) (policy_ids : List String) (user_query arguments : String) :
    List Nat :=
  blake3 (hash_compliance_stream tool_name compliant policy_ids user_query arguments)

/-- Translation of `utils::attest::generate_raw_report_from_hash`: the 32-byte
hash in bytes 0..32, zero in 32..64. -/
def generate_raw_report_from_hash (h : List Nat) : List Nat :=
  h ++ List.replicate 32 0

/-- Translation of `generate_compliance_quote`.  `get_quote` is the external
TEE provider (`attest::get_quote`); the timestamp is the external clock. -/
def generate_compliance_quote (blake3 : List Nat → List Nat)
    (get_quote : List Nat → Except String (List Nat)) (tool_name : String)
    (compliant : Bool) (policy_ids : List String) (user_query arguments : String)
    (now : Nat) : Except String ComplianceQuote :=
  let compliance_hash :=
    hash_compliance_data blake3 tool_name compliant policy_ids user_query arguments
  match get_quote (generate_raw_report_from_hash compliance_hash) with
  | .ok quote_bytes => .ok ⟨tool_name, compliant, quote_bytes, compliance_hash, now⟩
  | .error e => .error e

/-- `QuoteError` of `crates/attest/src/errors.rs` (the variants reachable from
`Quote::from_bytes`). -/
inductive QuoteError where
  | InvalidHeaderSize (n : Nat)
  | UnknownQuote (v : Nat)
deriving DecidableEq

/-- A parsed quote: `Quote` of `crates/attest/src/types.rs` preserves the raw
bytes for re-serialization; the version-specific body is only reached through
`report_data()`, modelled below as an external function of the raw bytes. -/
structure ParsedQuote where
  raw : List Nat
deriving DecidableEq

/-- Translation of `Quote::from_bytes`.  `HEADER_LEN = 48` and the header
version field come from the external dcap-rs crate, so the version extraction
is passed in as a function of the 48 header bytes. -/
def quote_from_bytes (headerVersion : List Nat → Nat) (bytes : List Nat) :
    Except QuoteError ParsedQuote :=
  if bytes.length < 48 then .error (.InvalidHeaderSize bytes.length)
  else
    let version := headerVersion (bytes.take 48)
    if version = 3 ∨ version = 4 ∨ version = 5 then .ok ⟨bytes⟩
    else .error (.UnknownQuote version)

/-- Translation of `verify_compliance_quote_dummy`.  `reportData` models the
external, version-specific `Quote::report_data()` extraction from the raw
bytes.  The Rust function returns `Ok(bool)` and never `Err`, so the model
returns `Bool`. -/
def verify_compliance_quote_dummy (headerVersion : List Nat → Nat)
    (reportData : List Nat → List Nat) (quote : ComplianceQuote)
    (expected_tool_name : String) : Bool :=
  if quote.tool_name ≠ expected_tool_name then false
  else if quote.quote_bytes.isEmpty then false
  else
    match quote_from_bytes headerVersion quote.quote_bytes with
    | .ok parsed =>
        if (reportData parsed.raw).take 32 = quote.compliance_hash then true else false
    | .error _ => false

/-! ## Tool registry (`agent/tools.rs`) -/

/-- A registered tool: name, bound policy IDs, and its `execute` operation.
The execute bodies of the four default tools read external JSON data files
(and call external serde parsing), so execution behaviour is a function
parameter. -/
structure ToolDef where
  name : String
  policy_ids : List String
  execute : String → Option ComplianceQuote → Except String String

/-- `ToolRegistry::get_tool`. -/
def get_tool (registry : List ToolDef) (name : String) : Option ToolDef :=
  registry.find? fun t => t.name = name

/-- Translation of `ToolRegistry::execute_tool_call`. -/
def execute_tool_call (registry : List ToolDef) (call : ToolCall) : ToolResult :=
  match get_tool registry call.tool_name with
  | none => ⟨call.id, false, "", some ("Tool not found: " ++ call.tool_name), false⟩
  | some tool =>
    match tool.execute call.arguments call.compliance_quote with
    | .ok data => ⟨call.id, true, data, none, call.compliance_quote.isSome⟩
    | .error e => ⟨call.id, false, "", some e, false⟩

/-- `ToolRegistry::new_crypto_tools`: the four default tools with their
`policy_ids()` from `agent/tools.rs`; execute bodies abstracted (external
JSON data). -/
def defaultRegistry (e₁ e₂ e₃ e₄ : String → Option ComplianceQuote → Except String String) :
    List ToolDef :=
  [ ⟨"PriceFeedTool", ["L1"], e₁⟩
  , ⟨"OnChainHistoryTool", ["L1", "L2", "L3"], e₂⟩
  , ⟨"SentimentTool", ["L1", "L4"], e₃⟩
  , ⟨"PortfolioTool", ["L1", "L2", "L3", "L4"], e₄⟩ ]

/-! ## Agent pipeline (`agent/crypto_agent.rs`, phases 2 and 3) -/

/-- Quote attachment for an approved call (`tool_call_with_quote` in phase 2):
a quote-generation failure is swallowed and the call proceeds without a
quote (`.toOption`). -/
def attach_quote (blake3 : List Nat → List Nat)
    (get_quote : List Nat → Except String (List Nat)) (user_query : String)
    (tool : ToolDef) (call : ToolCall) : ToolCall :=
  { call with compliance_quote :=
      (generate_compliance_quote blake3 get_quote call.tool_name true tool.policy_ids
        user_query call.arguments 0).toOption }

/-- Phase 2 of `execute_with_compliance_internal` (deterministic compliance,
`use_llm_compliance = false`): split the intended calls, in plan order, into
approved calls (with quote attached) and rejected calls (with reason). -/
def gate_tool_calls (registry : List ToolDef) (policies : List Policy)
    (tool_policy_map : List (String × List String)) (blake3 : List Nat → List Nat)
    (get_quote : List Nat → Except String (List Nat)) (user_query : String) :
    List ToolCall → List ToolCall × List (ToolCall × String)
  | [] => ([], [])
  | call :: rest =>
    let ar := gate_tool_calls registry policies tool_policy_map blake3 get_quote user_query rest
    match get_tool registry call.tool_name with
    | some tool =>
      match check_tool_compliance policies tool_policy_map call.tool_name user_query
          call.arguments with
      | .ok _ => (attach_quote blake3 get_quote user_query tool call :: ar.1, ar.2)
      | .error reason => (ar.1, (call, reason) :: ar.2)
    | none => (ar.1, (call, "Tool " ++ sq ++ call.tool_name ++ sq ++ " not found") :: ar.2)

/-- The failed `ToolResult` synthesized for a rejected call in phase 3. -/
def rejected_result (cr : ToolCall × String) : ToolResult :=
  ⟨cr.1.id, false, "", some ("Policy compliance failed: " ++ cr.2), false⟩

/-- Phases 2–4 of `execute_with_compliance_internal` for a given plan
(phase 1, LLM planning, produced the plan; phase 4, the final LLM answer, is
the external `finalResponse` function of the tool results).  Deterministic
compliance only (`use_llm_compliance = false`). -/
def execute_with_compliance (registry : List ToolDef) (policies : List Policy)
    (tool_policy_map : List (String × List String)) (blake3 : List Nat → List Nat)
    (get_quote : List Nat → Except String (List Nat))
    (finalResponse : List ToolResult → String) (plan : AgentPlan) (session_id : Uuid)
    (execution_time_ms : Nat) : AgentExecution :=
  let ar := gate_tool_calls registry policies tool_policy_map blake3 get_quote
    plan.user_query plan.intended_tool_calls
  let tool_results := ar.1.map (execute_tool_call registry) ++ ar.2.map rejected_result
  ⟨session_id, plan, plan.intended_tool_calls, tool_results,
    finalResponse tool_results, execution_time_ms⟩

/-- Whether the per-tool gate approves a call (tool known and compliant). -/
def gate_passes (registry : List ToolDef) (policies : List Policy)
    (tool_policy_map : List (String × List String)) (user_query : String)
    (call : ToolCall) : Bool :=
  match get_tool registry call.tool_name with
  | none => false
  | some _ =>
    match check_tool_compliance policies tool_policy_map call.tool_name user_query
        call.arguments with
    | .ok _ => true
    | .error _ => false

/-- The rejection reason recorded for a call the gate refuses. -/
def reject_reason (registry : List ToolDef) (policies : List Policy)
    (tool_policy_map : List (String × List String)) (user_query : String)
    (call : ToolCall) : String :=
  match get_tool registry call.tool_name with
  | none => "Tool " ++ sq ++ call.tool_name ++ sq ++ " not found"
  | some _ =>
    match check_tool_compliance policies tool_policy_map call.tool_name user_query
        call.arguments with
    | .ok _ => ""
    | .error reason => reason

/-- An approved call as it leaves the gate: its tool looked up and the
compliance quote attached. -/
def approved_call (registry : List ToolDef) (blake3 : List Nat → List Nat)
    (get_quote : List Nat → Except String (List Nat)) (user_query : String)
    (call : ToolCall) : ToolCall :=
  match get_tool registry call.tool_name with
  | some tool => attach_quote blake3 get_quote user_query tool call
  | none => call

/-! ## Execution hashing and compliance summary (`api/agent.rs`) -/

/-- Byte stream fed to the hasher by `hash_execution`: the exact sequence of
`hasher.update` calls, incremental accumulation made explicit as `foldl`. -/
def hash_execution_stream (e : AgentExecution) : List Nat :=
  let h : List Nat := []
  let h := h ++ e.session_id.bytes
  let h := h ++ strBytes e.plan.system_prompt
  let h := h ++ strBytes e.plan.user_query
  let h := e.plan.thought_process.foldl (fun h step => h ++ strBytes step.content) h
  let h := e.tool_calls.foldl
    (fun h call => h ++ call.id.bytes ++ strBytes call.tool_name ++ strBytes call.arguments) h
  let h := e.tool_results.foldl
    (fun h result => h ++ result.call_id.bytes ++ [if result.success then 1 else 0]
      ++ strBytes result.result) h
  h ++ strBytes e.final_response

/-- Translation of `hash_execution` (BLAKE3 external, as a function). -/
def hash_execution (blake3 : List Nat → List Nat) (e : AgentExecution) : List Nat :=
  blake3 (hash_execution_stream e)

/-- Translation of `generate_compliance_summary`.  Its inline plan hasher
feeds exactly the `hash_plan` stream. -/
def generate_compliance_summary (blake3 : List Nat → List Nat)
    (hexEncode : List Nat → String) (execution : AgentExecution) : ComplianceResult :=
  let plan_hash := hexEncode (blake3 (plan_stream execution.plan))
  let failed_tools := execution.tool_results.filter fun r => !r.success
  let compliant := failed_tools.isEmpty
  let reason :=
    if compliant then
      "All " ++ toString execution.tool_calls.length
        ++ " tool calls passed per-tool compliance checks during execution"
    else
      toString failed_tools.length ++ " of " ++ toString execution.tool_calls.length
        ++ " tool calls failed: ["
        ++ String.intercalate ", " (failed_tools.map fun r => r.call_id.str) ++ "]"
  ⟨compliant, reason, "per-tool-validation", plan_hash⟩

/-! ## Agent query handlers (`api/agent.rs`) -/

/-- `AgentQueryRequest` of `api/agent.rs`. -/
structure AgentQueryRequest where
  encrypted_query : String
  public_key : String
  use_llm_compliance : Bool
deriving DecidableEq

/-- HTTP status class of a `HypervisorError` (`error.rs`). -/
inductive HypStatus where
  | badRequest
  | unauthorized
  | internal
deriving DecidableEq

/-- A handler error: status plus the context message attached at the failure
site. -/
structure HypervisorError where
  status : HypStatus
  msg : String
deriving DecidableEq

/-- `AgentQueryResponse` of `api/agent.rs`. -/
structure AgentQueryResponse where
  session_id : Uuid
  encrypted_response : String
  response_nonce : String
  execution_time_ms : Nat
  execution_hash : String
  execution : AgentExecution
deriving DecidableEq

/-- `VerifiableAgentQueryResponse` of `api/agent.rs`. -/
structure VerifiableAgentQueryResponse where
  session_id : Uuid
  encrypted_response : String
  response_nonce : String
  execution_time_ms : Nat
  execution_hash : String
  quote : String
  compliance : ComplianceResult
  execution : AgentExecution
deriving DecidableEq

/-- External collaborators of the two agent query handlers: key parsing
(k256), the session registry state, AEAD key creation/encrypt/decrypt,
hex codec, UTF-8 decoding, the process environment, the LLM-driven agent
(`CryptoAgent::new` and `execute_with[_llm]_compliance`), BLAKE3 and the TEE
quote provider. -/
structure HandlerEnv where
  pkFromHex : String → Option String
  getSession : String → Option (String × Uuid)
  createEncryptKey : String → String → Uuid → Option String
  hexDecode : String → Option (List Nat)
  decrypt : String → List Nat → List Nat → Option (List Nat)
  utf8Decode : List Nat → Option String
  apiKey : Option String
  agentInit : Except String Unit
  runAgent : Bool → String → Uuid → String → Except String AgentExecution
  blake3 : List Nat → List Nat
  encrypt : String → List Nat → List Nat → Option (List Nat)
  hexEncode : List Nat → String
  getQuote : List Nat → Except String (List Nat)

/-- Translation of `utils::crypto::derive_msg_nonce`: first 12 bytes of the
BLAKE3 digest of the context bytes. -/
def derive_msg_nonce (blake3 : List Nat → List Nat) (data : List Nat) : List Nat :=
  (blake3 data).take 12

/-- Translation of `validate_agent_request`: reject empty (after trim)
`encrypted_query`, then empty `public_key`, as `BadRequest`. -/
def validate_agent_request (req : AgentQueryRequest) : Except HypervisorError Unit :=
  if trimStr req.encrypted_query = "" then
    .error ⟨.badRequest, "encrypted_query cannot be empty"⟩
  else if trimStr req.public_key = "" then
    .error ⟨.badRequest, "public_key cannot be empty"⟩
  else .ok ()

/-- Translation of the `query_agent` handler.  Each `?`-propagated failure
carries the context string and status attached at that site in the source;
the early returns become nested matches. -/
def query_agent (env : HandlerEnv) (req : AgentQueryRequest) :
    Except HypervisorError AgentQueryResponse :=
  match validate_agent_request req with
  | .error e => .error e
  | .ok _ =>
    match env.pkFromHex req.public_key with
    | none => .error ⟨.badRequest, "decode request pubkey"⟩
    | some user_pk =>
      match env.getSession user_pk with
      | none => .error ⟨.unauthorized, "session not found"⟩
      | some sp =>
        match env.createEncryptKey sp.1 user_pk sp.2 with
        | none => .error ⟨.internal, "create encrypt key"⟩
        | some cipher =>
          let msg_nonce := derive_msg_nonce env.blake3 sp.2.bytes
          match env.hexDecode req.encrypted_query with
          | none => .error ⟨.badRequest, "invalid query hex"⟩
          | some encrypted_bytes =>
            match env.decrypt cipher msg_nonce encrypted_bytes with
            | none => .error ⟨.badRequest, "decrypt query"⟩
            | some decrypted =>
              match env.utf8Decode decrypted with
              | none => .error ⟨.badRequest, ("query isn" ++ sq ++ "t valid UTF-8")⟩
              | some decrypted_query =>
                match env.apiKey with
                | none => .error ⟨.internal, "OPENAI_API_KEY not set"⟩
                | some api_key =>
                  match env.agentInit with
                  | .error _ => .error ⟨.internal, "Failed to initialize agent"⟩
                  | .ok _ =>
                    match env.runAgent req.use_llm_compliance decrypted_query sp.2
                        api_key with
                    | .error _ => .error ⟨.internal, "agent execution failed"⟩
                    | .ok execution =>
                      let execution_hash := hash_execution env.blake3 execution
                      let response_nonce := derive_msg_nonce env.blake3
                        (strBytes execution.final_response)
                      match env.encrypt cipher response_nonce
                          (strBytes execution.final_response) with
                      | none => .error ⟨.internal, "encrypt response"⟩
                      | some encrypted_response =>
                        .ok ⟨sp.2, env.hexEncode encrypted_response,
                          env.hexEncode response_nonce, execution.execution_time_ms,
                          env.hexEncode execution_hash, execution⟩

/-- Translation of the `verifiable_query_agent` handler.  Note: unlike
`query_agent`, the source performs no `validate_agent_request` step. -/
def verifiable_query_agent (env : HandlerEnv) (req : AgentQueryRequest) :
    Except HypervisorError VerifiableAgentQueryResponse :=
  match env.pkFromHex req.public_key with
  | none => .error ⟨.badRequest, "decode request pubkey"⟩
  | some user_pk =>
    match env.getSession user_pk with
    | none => .error ⟨.unauthorized, "session not found"⟩
    | some sp =>
      match env.createEncryptKey sp.1 user_pk sp.2 with
      | none => .error ⟨.internal, "create encrypt key"⟩
      | some cipher =>
        let msg_nonce := derive_msg_nonce env.blake3 sp.2.bytes
        match env.hexDecode req.encrypted_query with
        | none => .error ⟨.badRequest, "invalid query hex"⟩
        | some encrypted_bytes =>
          match env.decrypt cipher msg_nonce encrypted_bytes with
          | none => .error ⟨.badRequest, "decrypt query"⟩
          | some decrypted =>
            match env.utf8Decode decrypted with
            | none => .error ⟨.badRequest, ("query isn" ++ sq ++ "t valid UTF-8")⟩
            | some decrypted_query =>
              match env.apiKey with
              | none => .error ⟨.internal, "OPENAI_API_KEY not set"⟩
              | some api_key =>
                match env.agentInit with
                | .error _ => .error ⟨.internal, "Failed to initialize agent"⟩
                | .ok _ =>
                  match env.runAgent req.use_llm_compliance decrypted_query sp.2
                      api_key with
                  | .error _ => .error ⟨.internal, "agent execution failed"⟩
                  | .ok execution =>
                    let compliance := generate_compliance_summary env.blake3
                      env.hexEncode execution
                    let execution_hash := hash_execution env.blake3 execution
                    match env.getQuote
                        (generate_raw_report_from_hash execution_hash) with
                    | .error _ => .error ⟨.internal, "get agent query quote"⟩
                    | .ok quote =>
                      let response_nonce := derive_msg_nonce env.blake3
                        (strBytes execution.final_response)
                      match env.encrypt cipher response_nonce
                          (strBytes execution.final_response) with
                      | none => .error ⟨.internal, "encrypt response"⟩
                      | some encrypted_response =>
                        .ok ⟨sp.2, env.hexEncode encrypted_response,
                          env.hexEncode response_nonce, execution.execution_time_ms,
                          env.hexEncode execution_hash, env.hexEncode quote,
                          compliance, execution⟩

/-! ## Concrete instances used to evaluate the model

External behaviours instantiated for concrete runs: a tool execution that
fails (as `PriceFeedTool::execute` does when serde parsing of non-JSON
arguments fails, or when the symbol is absent from the data file), a TEE
provider that is unavailable (`attest::get_quote` outside a TEE falls through
to `NoProviderAvailable`), and simple handler environments. -/

/-- A tool execution that fails at argument parsing, as `PriceFeedTool::execute`
does on non-JSON arguments (tools.rs, `serde_json::from_str` error path). -/
def err_tool_exec : String → Option ComplianceQuote → Except String String :=
  fun _ _ => .error "Invalid arguments: expected value at line 1 column 1"

/-- The default registry with every tool execution failing at parsing. -/
def failing_registry : List ToolDef :=
  defaultRegistry err_tool_exec (fun _ _ => .error "") (fun _ _ => .error "")
    (fun _ _ => .error "")

/-- The TEE provider outside a TEE: quote generation fails. -/
def no_tee : List Nat → Except String (List Nat) := fun _ => .error "NoProviderAvailable"

/-- A fixed session UUID. -/
def sid0 : Uuid := ⟨List.replicate 16 0, "00000000-0000-0000-0000-000000000000"⟩

/-- A planner-proposed call to `PriceFeedTool` whose arguments are not JSON. -/
def price_call : ToolCall :=
  ⟨⟨List.replicate 16 1, "00000000-0000-0000-0000-000000000001"⟩, "PriceFeedTool",
    "not json", 0, none⟩

/-- A plan with one intended call that passes the gate but whose execution
fails at argument parsing. -/
def bad_args_plan : AgentPlan := ⟨"", "What is the price of BTC?", [], [price_call]⟩

/-- A planner-proposed call to a tool name unknown in the registry. -/
def unknown_call : ToolCall :=
  ⟨⟨List.replicate 16 2, "00000000-0000-0000-0000-000000000002"⟩, "NonexistentTool",
    "null", 0, none⟩

/-- A plan whose single intended call names an unknown tool. -/
def unknown_tool_plan : AgentPlan := ⟨"", "What is the price of BTC?", [], [unknown_call]⟩

/-- A plan where a rejected call (unknown tool) precedes an approved call. -/
def mixed_plan : AgentPlan :=
  ⟨"", "What is the price of BTC?", [], [unknown_call, price_call]⟩

/-- A trivial agent execution returned by the stub agent below. -/
def stub_execution (sid : Uuid) : AgentExecution := ⟨sid, ⟨"", "", [], []⟩, [], [], "", 0⟩

/-- Handler environment in which the public key decodes but no session
exists. -/
def env_no_session : HandlerEnv :=
  ⟨fun _ => some "pk", fun _ => none, fun _ _ _ => some "k", fun _ => some [],
    fun _ _ _ => some [], fun _ => some "", some "key", .ok (),
    fun _ _ sid _ => .ok (stub_execution sid), fun l => l, fun _ _ _ => some [],
    fun _ => "", fun _ => .ok []⟩

/-- Handler environment in which every external step succeeds. -/
def env_ok : HandlerEnv :=
  ⟨fun _ => some "pk", fun _ => some ("sk", sid0), fun _ _ _ => some "k",
    fun _ => some [], fun _ _ _ => some [], fun _ => some "", some "key", .ok (),
    fun _ _ sid _ => .ok (stub_execution sid), fun l => l, fun _ _ _ => some [],
    fun _ => "", fun _ => .ok []⟩

/-- A request whose encrypted body is empty. -/
def empty_body_req : AgentQueryRequest := ⟨"", "PK", false⟩

/-- A request with non-empty fields. -/
def ok_req : AgentQueryRequest := ⟨"c", "PK", false⟩

/-! ## Spec-side definitions

These are written from the specification's words, to be compared with the
definitions translated from the source. -/

/-- Rule-match predicate per the table of spec section 4.5 at the
`check_plan` call site, where no response text is available: rules whose
scanned field is "optional response text only" cannot fail there.  Matching
is case-insensitive substring matching against lower-cased inputs. -/
def specRuleMatches (rule : PolicyRule) (plan : AgentPlan) : Bool :=
  match rule.rule_type with
  | .ProhibitedKeywords keywords =>
      keywords.any fun kw =>
        strContainsB (toLowerStr plan.user_query) (toLowerStr kw)
          || strContainsB (toLowerStr plan.system_prompt) (toLowerStr kw)
          || plan.intended_tool_calls.any fun call =>
               strContainsB (toLowerStr call.arguments) (toLowerStr kw)
  | .RequiredAbsentPatterns patterns =>
      patterns.any fun pat => strContainsB (toLowerStr plan.user_query) (toLowerStr pat)
  | .NoIdentityInference prohibited_terms =>
      prohibited_terms.any fun term =>
        strContainsB (toLowerStr plan.user_query) (toLowerStr term)
  | .OutputRestriction _ _ => false
  | .RequireAttribution _ _ => false
  | .LLMCompliance _ => false

/-- The deterministic (policy, rule) pairs of a policy list, flattened in
declared visiting order of `check_compliance`. -/
def deterministic_rules (policies : List Policy) : List (Policy × PolicyRule) :=
  policies.flatMap fun policy =>
    policy.methods.flatMap fun method =>
      if method.method = ComplianceMethod.Deterministic then
        method.rules.map fun rule => (policy, rule)
      else []

/-- Execution-hash input per spec section 3: concatenation of session_id
bytes, system_prompt, user_query, thought contents, per tool call
(uuid, name, arguments), per result (call_id, success byte, result), and
final_response, in that exact order. -/
def spec_execution_bytes (e : AgentExecution) : List Nat :=
  e.session_id.bytes ++ strBytes e.plan.system_prompt ++ strBytes e.plan.user_query
    ++ (e.plan.thought_process.map fun s => strBytes s.content).flatten
    ++ (e.tool_calls.map fun c =>
          c.id.bytes ++ strBytes c.tool_name ++ strBytes c.arguments).flatten
    ++ (e.tool_results.map fun r =>
          r.call_id.bytes ++ [if r.success then 1 else 0] ++ strBytes r.result).flatten
    ++ strBytes e.final_response

/-- Compliance-hash input per spec section 4.6: `"COMPLIANCE_V1" || tool_name
|| compliant_byte || sorted(policy_ids joined) || user_query || arguments`. -/
def spec_compliance_bytes (tool_name : String) (compliant : Bool)
    (policy_ids : List String) (user_query arguments : String) : List Nat :=
  strBytes "COMPLIANCE_V1" ++ strBytes tool_name ++ [if compliant then 1 else 0]
    ++ ((sort_strings policy_ids).map strBytes).flatten
    ++ strBytes user_query ++ strBytes arguments

/-! ## Helper lemmas -/

theorem foldl_append_one {α : Type} (g : α → List Nat) (l : List α) (h : List Nat) :
    l.foldl (fun acc a => acc ++ g a) h = h ++ (l.map g).flatten := by
  induction l generalizing h with
  | nil => simp
  | cons a t ih => simp [ih, List.append_assoc]

theorem foldl_append_three {α : Type} (g₁ g₂ g₃ : α → List Nat) (l : List α)
    (h : List Nat) :
    l.foldl (fun acc a => acc ++ g₁ a ++ g₂ a ++ g₃ a) h
      = h ++ (l.map fun a => g₁ a ++ g₂ a ++ g₃ a).flatten := by
  induction l generalizing h with
  | nil => simp
  | cons a t ih => rw [List.foldl_cons, ih]; simp [List.append_assoc]

theorem findSome?_first {α β : Type} (f : α → Option β) (l₁ l₂ : List α) (x : α)
    (b : β) (h₁ : ∀ a ∈ l₁, f a = none) (hx : f x = some b) :
    (l₁ ++ x :: l₂).findSome? f = some b := by
  induction l₁ with
  | nil => simp [List.findSome?_cons, hx]
  | cons a t ih =>
    have ha : f a = none := h₁ a (by simp)
    simp only [List.cons_append, List.findSome?_cons, ha]
    exact ih fun a' ha' => h₁ a' (by simp [ha'])

theorem findSome?_flatMap {α β γ : Type} (g : α → List β) (f : β → Option γ)
    (l : List α) :
    (l.flatMap g).findSome? f = l.findSome? fun a => (g a).findSome? f := by
  induction l with
  | nil => rfl
  | cons a t ih =>
    rw [List.flatMap_cons, List.findSome?_append, ih, List.findSome?_cons]
    cases h : (g a).findSome? f <;> simp [h, Option.or]

/-- `first_violation` is the first hit over the flattened deterministic
(policy, rule) list. -/
theorem first_violation_eq_flat (policies : List Policy) (plan : AgentPlan) :
    first_violation policies plan
      = (deterministic_rules policies).findSome? fun pr =>
          (check_rule pr.2 plan none).map fun reason => (pr.1, pr.2, reason) := by
  simp only [deterministic_rules, findSome?_flatMap, first_violation,
    apply_ite (List.findSome? fun pr : Policy × PolicyRule =>
      (check_rule pr.2 plan none).map fun reason => (pr.1, pr.2, reason)),
    List.findSome?_map, List.findSome?_nil]
  rfl

theorem ite_some_none_eq_none {α : Type} {c : Prop} [Decidable c] {x : α} :
    (if c then some x else none) = none ↔ ¬c := by
  by_cases h : c <;> simp [h]

/-- `check_rule` (with no response text) accepts exactly when the spec's rule
table does not match. -/
theorem check_rule_none_iff (rule : PolicyRule) (plan : AgentPlan) :
    check_rule rule plan none = none ↔ specRuleMatches rule plan = false := by
  cases hrt : rule.rule_type with
  | ProhibitedKeywords keywords =>
    simp only [check_rule, hrt, specRuleMatches, List.findSome?_eq_none_iff,
      List.any_eq_false]
    refine forall_congr' fun kw => forall_congr' fun _ => ?_
    by_cases h1 : strContainsB (toLowerStr plan.user_query) (toLowerStr kw) <;>
      by_cases h2 : strContainsB (toLowerStr plan.system_prompt) (toLowerStr kw) <;>
        simp [h1, h2, List.findSome?_eq_none_iff, List.any_eq_false,
          ite_some_none_eq_none]
  | RequiredAbsentPatterns patterns =>
    simp only [check_rule, hrt, specRuleMatches, List.findSome?_eq_none_iff,
      List.any_eq_false]
    refine forall_congr' fun pat => forall_congr' fun _ => ?_
    simp [ite_some_none_eq_none]
  | OutputRestriction mri ra =>
    simp [check_rule, hrt, specRuleMatches]
  | NoIdentityInference prohibited_terms =>
    simp only [check_rule, hrt, specRuleMatches, Option.or_none]
    rw [List.findSome?_eq_none_iff, List.any_eq_false]
    refine forall_congr' fun term => forall_congr' fun _ => ?_
    simp [ite_some_none_eq_none]
  | RequireAttribution rs rt =>
    simp [check_rule, hrt, specRuleMatches]
  | LLMCompliance cp =>
    simp [check_rule, hrt, specRuleMatches]

/-- Quantifying over the flattened deterministic rules equals the nested
quantification over policies, methods and rules. -/
theorem forall_det_rules_iff (policies : List Policy) (P : PolicyRule → Prop) :
    (∀ pr ∈ deterministic_rules policies, P pr.2) ↔
      ∀ policy ∈ policies, ∀ method ∈ policy.methods,
        method.method = ComplianceMethod.Deterministic →
          ∀ rule ∈ method.rules, P rule := by
  constructor
  · intro h policy hp method hm hd rule hr
    apply h (policy, rule)
    refine List.mem_flatMap.mpr ⟨policy, hp, List.mem_flatMap.mpr ⟨method, hm, ?_⟩⟩
    rw [if_pos hd]
    exact List.mem_map_of_mem _ hr
  · rintro h ⟨p, r⟩ hpr
    obtain ⟨policy, hp, hpr2⟩ := List.mem_flatMap.mp hpr
    obtain ⟨method, hm, hpr3⟩ := List.mem_flatMap.mp hpr2
    by_cases hd : method.method = ComplianceMethod.Deterministic
    · rw [if_pos hd] at hpr3
      obtain ⟨rule, hr, heq⟩ := List.mem_map.mp hpr3
      rw [Prod.mk.injEq] at heq
      obtain ⟨h1, h2⟩ := heq
      subst h1
      subst h2
      exact h _ hp method hm hd _ hr
    · rw [if_neg hd] at hpr3
      exact absurd hpr3 (List.not_mem_nil _)

/-- C1: for every plan, `check_plan` (the source's
`ComplianceChecker::check_compliance`) returns `compliant = true` iff no
deterministic rule of any policy matches the plan per the spec's rule table;
and when some rule matches, the result is `compliant = false` with reason
exactly `Policy '<id>' (<name>) rule '<rule_id>' violated: <detail>` for the
first violating (policy, method, rule) visited in declared order. -/
theorem check_plan_compliant_iff_no_match (blake3 : List Nat → List Nat)
    (hexEncode : List Nat → String) (methodJson : ComplianceMethod → String)
    (ruleTypeJson : PolicyRuleType → String) (policies : List Policy)
    (plan : AgentPlan) :
    ((check_compliance blake3 hexEncode methodJson ruleTypeJson policies plan).compliant
        = true ↔
      ∀ policy ∈ policies, ∀ method ∈ policy.methods,
        method.method = ComplianceMethod.Deterministic →
          ∀ rule ∈ method.rules, specRuleMatches rule plan = false)
    ∧ (∀ (l₁ : List (Policy × PolicyRule)) (p : Policy) (r : PolicyRule)
          (reason : String) (l₂ : List (Policy × PolicyRule)),
        deterministic_rules policies = l₁ ++ (p, r) :: l₂ →
        (∀ pr ∈ l₁, specRuleMatches pr.2 plan = false) →
        check_rule r plan none = some reason →
        check_compliance blake3 hexEncode methodJson ruleTypeJson policies plan =
          ⟨false,
            "Policy " ++ sq ++ p.id ++ sq ++ " (" ++ p.name ++ ") rule " ++ sq
              ++ r.id ++ sq ++ " violated: " ++ reason,
            hexEncode (blake3 (policies_stream methodJson ruleTypeJson policies)),
            hexEncode (blake3 (plan_stream plan))⟩) := by
  constructor
  · have key : (check_compliance blake3 hexEncode methodJson ruleTypeJson policies
        plan).compliant = true ↔ first_violation policies plan = none := by
      simp only [check_compliance]
      cases hfv : first_violation policies plan <;> simp [hfv]
    rw [key, first_violation_eq_flat, List.findSome?_eq_none_iff]
    simp only [Option.map_eq_none']
    rw [forall_det_rules_iff policies fun r => check_rule r plan none = none]
    simp only [check_rule_none_iff]
  · intro l₁ p r reason l₂ hdec hclean hsome
    have hfv : first_violation policies plan = some (p, r, reason) := by
      rw [first_violation_eq_flat, hdec]
      apply findSome?_first
      · intro a ha
        rw [Option.map_eq_none']
        exact (check_rule_none_iff a.2 plan).mpr (hclean a ha)
      · rw [hsome]
        rfl
    simp only [check_compliance, hfv]
    rfl

set_option maxRecDepth 100000 in
/-- Witness for C1: the default policy set against the advice-seeking plan of
the source's own test (`test_compliance_l1_prohibited_keywords`): the L1
prohibited-keyword rule is the first deterministic rule, it fires on
`"should buy"`, and the result carries the exact formatted reason. -/
theorem check_plan_compliant_witness :
    check_compliance id (fun _ => "") (fun _ => "") (fun _ => "") defaultPolicies
        ⟨"Test system prompt", "You should buy Bitcoin now", [], []⟩ =
      ⟨false,
        "Policy " ++ sq ++ "L1" ++ sq ++ " (" ++ "No personalized investment advice"
          ++ ") rule " ++ sq ++ "no_investment_advice_keywords" ++ sq ++ " violated: "
          ++ ("Prohibited keyword " ++ sq ++ "should buy" ++ sq ++ " found in user query"),
        "", ""⟩ := by
  have h := (check_plan_compliant_iff_no_match id (fun _ => "") (fun _ => "")
    (fun _ => "") defaultPolicies
    ⟨"Test system prompt", "You should buy Bitcoin now", [], []⟩).2
  exact h []
    policyL1
    ⟨"no_investment_advice_keywords",
      PolicyRuleType.ProhibitedKeywords
        [ "should buy", "should sell", "should hold", "recommend buying"
        , "recommend selling", "suggest buying", "suggest selling"
        , "you should invest", "your portfolio", "allocate your" ]⟩
    ("Prohibited keyword " ++ sq ++ "should buy" ++ sq ++ " found in user query")
    [ (policyL2, ⟨"output_aggregation", PolicyRuleType.OutputRestriction (some 10) true⟩)
    , (policyL3, ⟨"no_identity_inference",
        PolicyRuleType.NoIdentityInference
          [ "this wallet belongs to", "owned by", "likely owned by"
          , "probably belongs to", "this address is", "belongs to a person"
          , "identity of the wallet" ]⟩)
    , (policyL4, ⟨"require_attribution", PolicyRuleType.RequireAttribution true true⟩) ]
    (by decide) (by intro pr hpr; exact absurd hpr (List.not_mem_nil pr)) (by decide)

/-- Sorting is invariant under permutation of the input: both sorts are
sorted and permutations of each other, hence equal. -/
theorem sort_strings_perm_invariant (l₁ l₂ : List String) (h : l₁.Perm l₂) :
    sort_strings l₁ = sort_strings l₂ :=
  List.eq_of_perm_of_sorted
    ((List.perm_insertionSort _ l₁).trans (h.trans (List.perm_insertionSort _ l₂).symm))
    (List.sorted_insertionSort _ l₁) (List.sorted_insertionSort _ l₂)

/-- C2: for every execution trace, `hash_execution` is BLAKE3 of exactly the
concatenation stated in the spec: session_id bytes, system_prompt,
user_query, thought contents, per tool call (uuid, name, arguments), per
result (call_id, success byte, result), final_response, in that order. -/
theorem hash_execution_eq_spec (blake3 : List Nat → List Nat) (e : AgentExecution) :
    hash_execution blake3 e = blake3 (spec_execution_bytes e) := by
  simp only [hash_execution, hash_execution_stream, spec_execution_bytes,
    foldl_append_one, foldl_append_three, List.nil_append, List.append_assoc]

/-- C3: the compliance hash of `generate_compliance_quote` is BLAKE3 of
exactly `"COMPLIANCE_V1" || tool_name || compliant_byte || sorted policy IDs
joined || user_query || arguments`, and it is invariant under permutation of
the policy-ID list. -/
theorem compliance_hash_eq_spec_and_perm_invariant (blake3 : List Nat → List Nat)
    (tool_name : String) (compliant : Bool) (policy_ids : List String)
    (user_query arguments : String) :
    (hash_compliance_data blake3 tool_name compliant policy_ids user_query arguments
        = blake3 (spec_compliance_bytes tool_name compliant policy_ids user_query arguments))
    ∧ (∀ (get_quote : List Nat → Except String (List Nat)) (now : Nat)
          (quote : ComplianceQuote),
        generate_compliance_quote blake3 get_quote tool_name compliant policy_ids
            user_query arguments now = .ok quote →
          quote.compliance_hash
            = blake3 (spec_compliance_bytes tool_name compliant policy_ids user_query
                arguments))
    ∧ (∀ ids₂ : List String, policy_ids.Perm ids₂ →
        hash_compliance_data blake3 tool_name compliant policy_ids user_query arguments
          = hash_compliance_data blake3 tool_name compliant ids₂ user_query arguments) := by
  have hstream : ∀ ids : List String,
      hash_compliance_stream tool_name compliant ids user_query arguments
        = spec_compliance_bytes tool_name compliant ids user_query arguments := by
    intro ids
    simp only [hash_compliance_stream, spec_compliance_bytes, foldl_append_one,
      List.nil_append, List.append_assoc]
  refine ⟨?_, ?_, ?_⟩
  · simp only [hash_compliance_data, hstream]
  · intro get_quote now quote hq
    simp only [generate_compliance_quote] at hq
    cases hgq : get_quote (generate_raw_report_from_hash
        (hash_compliance_data blake3 tool_name compliant policy_ids user_query
          arguments)) with
    | ok quote_bytes =>
      rw [hgq] at hq
      cases hq
      simp only [hash_compliance_data, hstream]
    | error e =>
      rw [hgq] at hq
      cases hq
  · intro ids₂ hperm
    simp only [hash_compliance_data, hash_compliance_stream,
      sort_strings_perm_invariant policy_ids ids₂ hperm]

/-- Witness for C3 at concrete inputs: the quote returned for SentimentTool's
policy list carries the spec hash, and the permuted list yields the same
compliance hash. -/
theorem compliance_hash_witness :
    ((generate_compliance_quote id (fun r => .ok r) "SentimentTool" true ["L4", "L1"]
        "q" "a" 7).map (fun q => q.compliance_hash)
      = .ok (spec_compliance_bytes "SentimentTool" true ["L4", "L1"] "q" "a"))
    ∧ hash_compliance_data id "SentimentTool" true ["L4", "L1"] "q" "a"
        = hash_compliance_data id "SentimentTool" true ["L1", "L4"] "q" "a" := by
  have h := compliance_hash_eq_spec_and_perm_invariant id "SentimentTool" true
    ["L4", "L1"] "q" "a"
  constructor
  · simp only [Except.map, generate_compliance_quote]
    exact congrArg Except.ok h.1
  · exact h.2.2 ["L1", "L4"] (by decide)

/-- C9: `hash_execution` is not injective: two distinct executions, differing
only in where the boundary between `system_prompt` and `user_query` falls,
feed the identical byte stream to BLAKE3 and therefore share every hash. -/
theorem hash_execution_not_injective :
    ∃ e₁ e₂ : AgentExecution, e₁ ≠ e₂ ∧
      ∀ blake3 : List Nat → List Nat, hash_execution blake3 e₁ = hash_execution blake3 e₂ := by
  refine ⟨⟨⟨List.replicate 16 0, "sid"⟩, ⟨"ab", "", [], []⟩, [], [], "", 0⟩,
    ⟨⟨List.replicate 16 0, "sid"⟩, ⟨"a", "b", [], []⟩, [], [], "", 0⟩, by decide, ?_⟩
  intro blake3
  exact congrArg blake3 (by decide)

/-- C4: `verify_compliance_quote` returns true iff the tool name matches, the
quote bytes are non-empty, the bytes parse as a TEE quote, and the first 32
bytes of the parsed quote's report_data equal the stored compliance hash —
and nothing else is checked (in particular no signature verification). -/
theorem verify_compliance_quote_iff (headerVersion : List Nat → Nat)
    (reportData : List Nat → List Nat) (quote : ComplianceQuote)
    (expected_tool_name : String) :
    verify_compliance_quote_dummy headerVersion reportData quote expected_tool_name
        = true ↔
      quote.tool_name = expected_tool_name ∧ quote.quote_bytes ≠ [] ∧
        ∃ parsed, quote_from_bytes headerVersion quote.quote_bytes = .ok parsed ∧
          (reportData parsed.raw).take 32 = quote.compliance_hash := by
  simp only [verify_compliance_quote_dummy]
  by_cases h1 : quote.tool_name = expected_tool_name
  · rw [if_neg (by simp [h1])]
    by_cases h2 : quote.quote_bytes.isEmpty
    · rw [if_pos h2]
      have h2' : quote.quote_bytes = [] := List.isEmpty_iff.mp h2
      simp [h2']
    · rw [if_neg h2]
      have h2' : quote.quote_bytes ≠ [] := by
        intro hnil
        exact h2 (by simp [hnil])
      cases hq : quote_from_bytes headerVersion quote.quote_bytes with
      | ok parsed =>
        dsimp only
        by_cases h3 : (reportData parsed.raw).take 32 = quote.compliance_hash
        · rw [if_pos h3]
          refine ⟨fun _ => ⟨h1, h2', parsed, rfl, h3⟩, fun _ => rfl⟩
        · rw [if_neg h3]
          refine ⟨fun h => absurd h (by simp), ?_⟩
          rintro ⟨-, -, parsed', hp', h3'⟩
          cases hp'
          exact absurd h3' h3
      | error e =>
        dsimp only
        refine ⟨fun h => absurd h (by simp), ?_⟩
        rintro ⟨-, -, parsed', hp', -⟩
        cases hp'
  · rw [if_pos (by simp [h1])]
    simp [h1]

/-- The gate splits the intended calls into the order-preserving approved and
rejected sublists. -/
theorem gate_tool_calls_eq_filter (registry : List ToolDef) (policies : List Policy)
    (tool_policy_map : List (String × List String)) (blake3 : List Nat → List Nat)
    (get_quote : List Nat → Except String (List Nat)) (user_query : String)
    (calls : List ToolCall) :
    gate_tool_calls registry policies tool_policy_map blake3 get_quote user_query calls
      = ((calls.filter (gate_passes registry policies tool_policy_map user_query)).map
           (approved_call registry blake3 get_quote user_query),
         (calls.filter fun c =>
             !gate_passes registry policies tool_policy_map user_query c).map
           fun c => (c, reject_reason registry policies tool_policy_map user_query c)) := by
  induction calls with
  | nil => rfl
  | cons call rest ih =>
    simp only [gate_tool_calls, ih]
    cases hgt : get_tool registry call.tool_name with
    | none =>
      simp [List.filter_cons, gate_passes, hgt, reject_reason]
    | some tool =>
      cases hc : check_tool_compliance policies tool_policy_map call.tool_name user_query
          call.arguments with
      | ok u =>
        simp [List.filter_cons, gate_passes, hgt, hc, approved_call]
      | error reason =>
        simp [List.filter_cons, gate_passes, hgt, hc, reject_reason]

theorem execute_tool_call_call_id (registry : List ToolDef) (call : ToolCall) :
    (execute_tool_call registry call).call_id = call.id := by
  unfold execute_tool_call
  cases hgt : get_tool registry call.tool_name with
  | none => rfl
  | some tool =>
    dsimp only
    cases hex : tool.execute call.arguments call.compliance_quote <;> rfl

theorem approved_call_id (registry : List ToolDef) (blake3 : List Nat → List Nat)
    (get_quote : List Nat → Except String (List Nat)) (user_query : String)
    (call : ToolCall) :
    (approved_call registry blake3 get_quote user_query call).id = call.id := by
  unfold approved_call attach_quote
  cases get_tool registry call.tool_name <;> rfl

/-- C5 (amended): for a plan with N intended calls of which exactly k pass
the per-tool gate, the execution has exactly N tool results; the first k are
the executions of the gate-approved calls in plan order (success true iff the
tool execution succeeded); the remaining N−k have `success = false` and error
prefix `"Policy compliance failed: "`. -/
theorem gate_behavior_results (registry : List ToolDef) (policies : List Policy)
    (tpm : List (String × List String)) (blake3 : List Nat → List Nat)
    (get_quote : List Nat → Except String (List Nat))
    (finalResponse : List ToolResult → String) (plan : AgentPlan) (session_id : Uuid)
    (t : Nat) :
    (execute_with_compliance registry policies tpm blake3 get_quote finalResponse plan
        session_id t).tool_results.length = plan.intended_tool_calls.length
    ∧ (execute_with_compliance registry policies tpm blake3 get_quote finalResponse plan
        session_id t).tool_results.take
          (plan.intended_tool_calls.countP
            (gate_passes registry policies tpm plan.user_query))
        = ((plan.intended_tool_calls.filter
              (gate_passes registry policies tpm plan.user_query)).map
            (approved_call registry blake3 get_quote plan.user_query)).map
            (execute_tool_call registry)
    ∧ ∀ r ∈ (execute_with_compliance registry policies tpm blake3 get_quote finalResponse
        plan session_id t).tool_results.drop
          (plan.intended_tool_calls.countP
            (gate_passes registry policies tpm plan.user_query)),
        r.success = false ∧
          ∃ reason, r.error = some ("Policy compliance failed: " ++ reason) := by
  have hres : (execute_with_compliance registry policies tpm blake3 get_quote
      finalResponse plan session_id t).tool_results
      = ((plan.intended_tool_calls.filter
            (gate_passes registry policies tpm plan.user_query)).map
          (approved_call registry blake3 get_quote plan.user_query)).map
          (execute_tool_call registry)
        ++ ((plan.intended_tool_calls.filter fun c =>
              !gate_passes registry policies tpm plan.user_query c).map
            fun c => (c, reject_reason registry policies tpm plan.user_query c)).map
            rejected_result := by
    simp only [execute_with_compliance, gate_tool_calls_eq_filter]
  have hk : plan.intended_tool_calls.countP
      (gate_passes registry policies tpm plan.user_query)
      = (((plan.intended_tool_calls.filter
            (gate_passes registry policies tpm plan.user_query)).map
          (approved_call registry blake3 get_quote plan.user_query)).map
          (execute_tool_call registry)).length := by
    simp [List.countP_eq_length_filter]
  refine ⟨?_, ?_, ?_⟩
  · rw [hres]
    have hperm := (List.filter_append_perm
      (gate_passes registry policies tpm plan.user_query)
      plan.intended_tool_calls).length_eq
    simp only [List.length_append, List.length_map] at *
    omega
  · rw [hres, hk, List.take_left]
  · rw [hres, hk, List.drop_left]
    intro r hr
    obtain ⟨pr, hpr, hcr⟩ := List.mem_map.mp hr
    exact ⟨by rw [← hcr]; rfl, pr.2, by rw [← hcr]; rfl⟩

set_option maxRecDepth 400000 in
/-- Counterexample to C5 as stated: `price_call` passes the gate (k = 1 of
N = 1), yet the produced execution has zero results with `success = true`,
because the approved call's tool execution itself fails (argument parsing). -/
theorem gate_behavior_counterexample :
    gate_passes failing_registry defaultPolicies defaultToolPolicyMap
        bad_args_plan.user_query price_call = true
    ∧ (execute_with_compliance failing_registry defaultPolicies defaultToolPolicyMap id
        no_tee (fun _ => "") bad_args_plan sid0 0).tool_results.length = 1
    ∧ (execute_with_compliance failing_registry defaultPolicies defaultToolPolicyMap id
        no_tee (fun _ => "") bad_args_plan sid0 0).tool_results.countP
          (fun r => r.success) = 0 := by
  refine ⟨by decide, by decide, by decide⟩

set_option maxRecDepth 400000 in
/-- Witness for C5 (amended) at a concrete run. -/
theorem gate_behavior_results_witness :
    (execute_with_compliance failing_registry defaultPolicies defaultToolPolicyMap id
        no_tee (fun _ => "") bad_args_plan sid0 0).tool_results.length
      = bad_args_plan.intended_tool_calls.length :=
  (gate_behavior_results failing_registry defaultPolicies defaultToolPolicyMap id
    no_tee (fun _ => "") bad_args_plan sid0 0).1

/-- C6 (amended): a planner-proposed call to a tool name unknown in the
registry yields a tool result with `success = false` and error exactly
`"Policy compliance failed: Tool '<name>' not found"`. -/
theorem unknown_tool_result (registry : List ToolDef) (policies : List Policy)
    (tpm : List (String × List String)) (blake3 : List Nat → List Nat)
    (get_quote : List Nat → Except String (List Nat))
    (finalResponse : List ToolResult → String) (plan : AgentPlan) (session_id : Uuid)
    (t : Nat) (c : ToolCall) (hc : c ∈ plan.intended_tool_calls)
    (hn : get_tool registry c.tool_name = none) :
    (⟨c.id, false, "",
        some ("Policy compliance failed: "
          ++ ("Tool " ++ sq ++ c.tool_name ++ sq ++ " not found")), false⟩ : ToolResult)
      ∈ (execute_with_compliance registry policies tpm blake3 get_quote finalResponse
          plan session_id t).tool_results := by
  have hpass : gate_passes registry policies tpm plan.user_query c = false := by
    simp [gate_passes, hn]
  simp only [execute_with_compliance, gate_tool_calls_eq_filter]
  apply List.mem_append_right
  rw [List.map_map]
  apply List.mem_map.mpr
  refine ⟨c, List.mem_filter.mpr ⟨hc, by simp [hpass]⟩, ?_⟩
  simp [Function.comp, rejected_result, reject_reason, hn]

set_option maxRecDepth 400000 in
/-- Counterexample to C6 as stated: the unknown-tool result's error string is
the prefixed `"Policy compliance failed: Tool 'NonexistentTool' not found"`,
not the bare `"Tool 'NonexistentTool' not found"` the claim asserts. -/
theorem unknown_tool_error_counterexample :
    ((execute_with_compliance failing_registry defaultPolicies defaultToolPolicyMap id
        no_tee (fun _ => "") unknown_tool_plan sid0 0).tool_results.map
          fun r => (r.success, r.error))
      = [(false, some ("Policy compliance failed: Tool " ++ sq ++ "NonexistentTool"
          ++ sq ++ " not found"))]
    ∧ ("Policy compliance failed: Tool " ++ sq ++ "NonexistentTool" ++ sq
          ++ " not found")
        ≠ ("Tool " ++ sq ++ "NonexistentTool" ++ sq ++ " not found") := by
  refine ⟨by decide, by decide⟩

set_option maxRecDepth 400000 in
/-- Witness for C6 (amended) at a concrete run. -/
theorem unknown_tool_result_witness :
    (⟨unknown_call.id, false, "",
        some ("Policy compliance failed: "
          ++ ("Tool " ++ sq ++ unknown_call.tool_name ++ sq ++ " not found")),
        false⟩ : ToolResult)
      ∈ (execute_with_compliance failing_registry defaultPolicies defaultToolPolicyMap id
          no_tee (fun _ => "") unknown_tool_plan sid0 0).tool_results :=
  unknown_tool_result failing_registry defaultPolicies defaultToolPolicyMap id no_tee
    (fun _ => "") unknown_tool_plan sid0 0 unknown_call (by decide) (by rfl)

/-- If the head of a list is rejected but some later element is accepted,
then listing accepted elements before rejected ones changes the order of the
(injectively projected) list. -/
theorem filter_reorder_ne_head {α β : Type} (f : α → β) (p : α → Bool) (c : α)
    (l : List α) (hnd : ((c :: l).map f).Nodup) (hpc : p c = false)
    (hex : ∃ b ∈ l, p b = true) :
    (((c :: l).filter p).map f) ++ (((c :: l).filter fun x => !p x).map f)
      ≠ (c :: l).map f := by
  intro heq
  rw [List.filter_cons_of_neg (by simp [hpc])] at heq
  obtain ⟨b, hb, hpb⟩ := hex
  have hbf : b ∈ l.filter p := List.mem_filter.mpr ⟨hb, hpb⟩
  cases hfp : l.filter p with
  | nil => rw [hfp] at hbf; exact absurd hbf (List.not_mem_nil b)
  | cons b0 bs =>
    rw [hfp] at heq
    simp only [List.map_cons, List.cons_append] at heq
    injection heq with h1 _
    have hb0 : b0 ∈ l := by
      have : b0 ∈ l.filter p := by rw [hfp]; exact List.mem_cons_self b0 bs
      exact (List.mem_filter.mp this).1
    have hmem : f c ∈ l.map f := h1 ▸ List.mem_map_of_mem f hb0
    rw [List.map_cons, List.nodup_cons] at hnd
    exact hnd.1 hmem

/-- Whenever a rejected element precedes an accepted one, the
accepted-then-rejected reordering differs from the original list (under an
injective-on-the-list projection, expressed as `Nodup` of the image). -/
theorem filter_reorder_ne {α β : Type} (f : α → β) (p : α → Bool) (l₁ : List α) :
    ∀ (c₁ : α) (l₂ : List α), ((l₁ ++ c₁ :: l₂).map f).Nodup → p c₁ = false →
      (∃ c₂ ∈ l₂, p c₂ = true) →
      (((l₁ ++ c₁ :: l₂).filter p).map f)
          ++ (((l₁ ++ c₁ :: l₂).filter fun x => !p x).map f)
        ≠ (l₁ ++ c₁ :: l₂).map f := by
  induction l₁ with
  | nil =>
    intro c₁ l₂ hnd hpc hex
    exact filter_reorder_ne_head f p c₁ l₂ hnd hpc hex
  | cons a t ih =>
    intro c₁ l₂ hnd hpc hex
    rw [List.cons_append]
    by_cases hpa : p a = true
    · intro heq
      rw [List.filter_cons_of_pos hpa,
        List.filter_cons_of_neg (by simp [hpa])] at heq
      simp only [List.map_cons, List.cons_append] at heq
      injection heq with _ htail
      have hnd' : ((t ++ c₁ :: l₂).map f).Nodup := by
        rw [List.cons_append, List.map_cons, List.nodup_cons] at hnd
        exact hnd.2
      exact ih c₁ l₂ hnd' hpc hex htail
    · obtain ⟨c₂, hc₂, hpc₂⟩ := hex
      refine filter_reorder_ne_head f p a (t ++ c₁ :: l₂) (by rwa [List.cons_append] at hnd)
        (by simpa using hpa) ⟨c₂, ?_, hpc₂⟩
      exact List.mem_append_right t (List.mem_cons_of_mem c₁ hc₂)

/-- C10: the execution's tool results are the gate-approved calls' results
first, in plan order, followed by one synthesized failed result per rejected
call; consequently, whenever a rejected call precedes an approved call in the
plan (and call IDs are distinct, as the freshly generated UUIDv7s are), the
order of `tool_results` differs from the order of `intended_tool_calls`. -/
theorem tool_results_order (registry : List ToolDef) (policies : List Policy)
    (tpm : List (String × List String)) (blake3 : List Nat → List Nat)
    (get_quote : List Nat → Except String (List Nat))
    (finalResponse : List ToolResult → String) (plan : AgentPlan) (session_id : Uuid)
    (t : Nat) :
    ((execute_with_compliance registry policies tpm blake3 get_quote finalResponse plan
        session_id t).tool_results.map fun r => r.call_id)
        = ((plan.intended_tool_calls.filter
              (gate_passes registry policies tpm plan.user_query)).map fun c => c.id)
          ++ ((plan.intended_tool_calls.filter fun c =>
                !gate_passes registry policies tpm plan.user_query c).map fun c => c.id)
    ∧ ((plan.intended_tool_calls.map fun c => c.id).Nodup →
        ∀ (l₁ : List ToolCall) (c₁ : ToolCall) (l₂ : List ToolCall),
          plan.intended_tool_calls = l₁ ++ c₁ :: l₂ →
          gate_passes registry policies tpm plan.user_query c₁ = false →
          (∃ c₂ ∈ l₂, gate_passes registry policies tpm plan.user_query c₂ = true) →
          ((execute_with_compliance registry policies tpm blake3 get_quote finalResponse
              plan session_id t).tool_results.map fun r => r.call_id)
            ≠ plan.intended_tool_calls.map fun c => c.id) := by
  have hpart1 : ((execute_with_compliance registry policies tpm blake3 get_quote
      finalResponse plan session_id t).tool_results.map fun r => r.call_id)
      = ((plan.intended_tool_calls.filter
            (gate_passes registry policies tpm plan.user_query)).map fun c => c.id)
        ++ ((plan.intended_tool_calls.filter fun c =>
              !gate_passes registry policies tpm plan.user_query c).map fun c => c.id) := by
    simp only [execute_with_compliance, gate_tool_calls_eq_filter, List.map_append,
      List.map_map]
    congr 1
    apply List.map_congr_left
    intro c _
    simp only [Function.comp]
    rw [execute_tool_call_call_id, approved_call_id]
  refine ⟨hpart1, ?_⟩
  intro hnd l₁ c₁ l₂ hdecomp hpc hex
  rw [hpart1, hdecomp]
  have hnd' : ((l₁ ++ c₁ :: l₂).map fun c : ToolCall => c.id).Nodup := by
    rwa [hdecomp] at hnd
  exact filter_reorder_ne (fun c : ToolCall => c.id)
    (gate_passes registry policies tpm plan.user_query) l₁ c₁ l₂ hnd' hpc hex

set_option maxRecDepth 400000 in
/-- Witness for C10 at a concrete run: in `mixed_plan` the rejected
unknown-tool call precedes the approved `PriceFeedTool` call, so the results
order differs from the intended order. -/
theorem tool_results_order_witness :
    ((execute_with_compliance failing_registry defaultPolicies defaultToolPolicyMap id
        no_tee (fun _ => "") mixed_plan sid0 0).tool_results.map fun r => r.call_id)
      ≠ mixed_plan.intended_tool_calls.map fun c => c.id :=
  (tool_results_order failing_registry defaultPolicies defaultToolPolicyMap id no_tee
    (fun _ => "") mixed_plan sid0 0).2 (by decide) [] unknown_call [price_call] rfl
    (by decide) ⟨price_call, by decide, by decide⟩

/-- Counterexample to C7 as stated: on a request with an empty encrypted body
(and a resolvable public key with no session), `query_agent` rejects with
BadRequest from its validation step, but `verifiable_query_agent` performs no
validation — it proceeds to the session lookup and fails with Unauthorized,
not BadRequest. -/
theorem verifiable_query_skips_validation :
    query_agent env_no_session empty_body_req
        = .error ⟨.badRequest, "encrypted_query cannot be empty"⟩
    ∧ verifiable_query_agent env_no_session empty_body_req
        = .error ⟨.unauthorized, "session not found"⟩ := by
  constructor <;> rfl

/-- C7 (amended): `query_agent` validates first that the encrypted body and
the public key are non-empty, rejecting each with BadRequest;
`verifiable_query_agent` performs no such validation; apart from the missing
validation step, the endpoints agree on every shared response field, the
verifiable variant additionally carrying a TEE quote over the execution hash
and a compliance summary. -/
theorem query_endpoints_validation_and_agreement :
    (∀ (env : HandlerEnv) (req : AgentQueryRequest), trimStr req.encrypted_query = "" →
        query_agent env req = .error ⟨.badRequest, "encrypted_query cannot be empty"⟩)
    ∧ (∀ (env : HandlerEnv) (req : AgentQueryRequest),
        trimStr req.encrypted_query ≠ "" → trimStr req.public_key = "" →
        query_agent env req = .error ⟨.badRequest, "public_key cannot be empty"⟩)
    ∧ (∀ (env : HandlerEnv) (req : AgentQueryRequest)
          (r : VerifiableAgentQueryResponse),
        trimStr req.encrypted_query ≠ "" → trimStr req.public_key ≠ "" →
        verifiable_query_agent env req = .ok r →
        query_agent env req = .ok ⟨r.session_id, r.encrypted_response,
          r.response_nonce, r.execution_time_ms, r.execution_hash, r.execution⟩) := by
  refine ⟨?_, ?_, ?_⟩
  · intro env req h
    have hval : validate_agent_request req
        = .error ⟨.badRequest, "encrypted_query cannot be empty"⟩ := by
      rw [validate_agent_request, if_pos h]
    rw [query_agent, hval]
  · intro env req h1 h2
    have hval : validate_agent_request req
        = .error ⟨.badRequest, "public_key cannot be empty"⟩ := by
      rw [validate_agent_request, if_neg h1, if_pos h2]
    rw [query_agent, hval]
  · intro env req r h1 h2 hv
    have hval : validate_agent_request req = .ok () := by
      rw [validate_agent_request, if_neg h1, if_neg h2]
    rw [verifiable_query_agent] at hv
    rw [query_agent, hval]
    dsimp only
    cases hpk : env.pkFromHex req.public_key with
    | none => rw [hpk] at hv; dsimp only at hv; exact Except.noConfusion hv
    | some user_pk =>
    rw [hpk] at hv
    dsimp only at hv ⊢
    cases hs : env.getSession user_pk with
    | none => rw [hs] at hv; dsimp only at hv; exact Except.noConfusion hv
    | some sp =>
    rw [hs] at hv
    dsimp only at hv ⊢
    cases hck : env.createEncryptKey sp.1 user_pk sp.2 with
    | none => rw [hck] at hv; dsimp only at hv; exact Except.noConfusion hv
    | some cipher =>
    rw [hck] at hv
    dsimp only at hv ⊢
    cases hhd : env.hexDecode req.encrypted_query with
    | none => rw [hhd] at hv; dsimp only at hv; exact Except.noConfusion hv
    | some encrypted_bytes =>
    rw [hhd] at hv
    dsimp only at hv ⊢
    cases hde : env.decrypt cipher (derive_msg_nonce env.blake3 sp.2.bytes)
        encrypted_bytes with
    | none => rw [hde] at hv; dsimp only at hv; exact Except.noConfusion hv
    | some decrypted =>
    rw [hde] at hv
    dsimp only at hv ⊢
    cases hu8 : env.utf8Decode decrypted with
    | none => rw [hu8] at hv; dsimp only at hv; exact Except.noConfusion hv
    | some decrypted_query =>
    rw [hu8] at hv
    dsimp only at hv ⊢
    cases hak : env.apiKey with
    | none => rw [hak] at hv; dsimp only at hv; exact Except.noConfusion hv
    | some api_key =>
    rw [hak] at hv
    dsimp only at hv ⊢
    cases hai : env.agentInit with
    | error e => rw [hai] at hv; dsimp only at hv; exact Except.noConfusion hv
    | ok u =>
    rw [hai] at hv
    dsimp only at hv ⊢
    cases hra : env.runAgent req.use_llm_compliance decrypted_query sp.2 api_key with
    | error e => rw [hra] at hv; dsimp only at hv; exact Except.noConfusion hv
    | ok execution =>
    rw [hra] at hv
    dsimp only at hv ⊢
    cases hgq : env.getQuote
        (generate_raw_report_from_hash (hash_execution env.blake3 execution)) with
    | error e => rw [hgq] at hv; dsimp only at hv; exact Except.noConfusion hv
    | ok quote =>
    rw [hgq] at hv
    dsimp only at hv
    cases hen : env.encrypt cipher
        (derive_msg_nonce env.blake3 (strBytes execution.final_response))
        (strBytes execution.final_response) with
    | none => rw [hen] at hv; dsimp only at hv; exact Except.noConfusion hv
    | some encrypted_response =>
    rw [hen] at hv
    dsimp only at hv ⊢
    cases hv
    rfl

/-- Witness for C7 (amended): the successful concrete environment in which
the verifiable endpoint answers, and the plain endpoint answers with exactly
the shared fields. -/
theorem query_endpoints_agreement_witness :
    query_agent env_ok ok_req = .ok
      ⟨(verifiable_query_agent env_ok ok_req).toOption.get (by rfl) |>.session_id,
        (verifiable_query_agent env_ok ok_req).toOption.get (by rfl) |>.encrypted_response,
        (verifiable_query_agent env_ok ok_req).toOption.get (by rfl) |>.response_nonce,
        (verifiable_query_agent env_ok ok_req).toOption.get (by rfl) |>.execution_time_ms,
        (verifiable_query_agent env_ok ok_req).toOption.get (by rfl) |>.execution_hash,
        (verifiable_query_agent env_ok ok_req).toOption.get (by rfl) |>.execution⟩ :=
  query_endpoints_validation_and_agreement.2.2 env_ok ok_req
    ((verifiable_query_agent env_ok ok_req).toOption.get (by rfl))
    (by decide) (by decide) (by rfl)

/-- C8: the verifiable response's compliance summary is compliant iff every
tool result succeeded; otherwise it is non-compliant with a reason listing
the failed call IDs. -/
theorem compliance_summary_compliant_iff (blake3 : List Nat → List Nat)
    (hexEncode : List Nat → String) (e : AgentExecution) :
    ((generate_compliance_summary blake3 hexEncode e).compliant = true ↔
      ∀ r ∈ e.tool_results, r.success = true)
    ∧ ((generate_compliance_summary blake3 hexEncode e).compliant = false →
        (generate_compliance_summary blake3 hexEncode e).reason
          = toString (e.tool_results.filter fun r => !r.success).length ++ " of "
            ++ toString e.tool_calls.length ++ " tool calls failed: ["
            ++ String.intercalate ", "
                ((e.tool_results.filter fun r => !r.success).map fun r => r.call_id.str)
            ++ "]") := by
  constructor
  · simp only [generate_compliance_summary, List.isEmpty_iff, List.filter_eq_nil_iff]
    refine forall_congr' fun r => forall_congr' fun _ => ?_
    simp
  · intro h
    simp only [generate_compliance_summary] at h ⊢
    cases hb : (e.tool_results.filter fun r => !r.success).isEmpty with
    | true => rw [hb] at h; exact absurd h (by simp)
    | false => simp

/-- Witness for C8 at a concrete execution with one failed result. -/
theorem compliance_summary_witness :
    (generate_compliance_summary id (fun _ => "")
        ⟨sid0, ⟨"", "", [], []⟩, [], [⟨sid0, false, "", some "boom", false⟩], "", 0⟩).reason
      = toString (([⟨sid0, false, "", some "boom", false⟩] : List ToolResult).filter
            fun r => !r.success).length ++ " of "
        ++ toString ([] : List ToolCall).length ++ " tool calls failed: ["
        ++ String.intercalate ", "
            ((([⟨sid0, false, "", some "boom", false⟩] : List ToolResult).filter
              fun r => !r.success).map fun r => r.call_id.str)
        ++ "]" :=
  (compliance_summary_compliant_iff id (fun _ => "")
    ⟨sid0, ⟨"", "", [], []⟩, [], [⟨sid0, false, "", some "boom", false⟩], "", 0⟩).2
    (by decide)

end Sahara
